import Mathlib

/-!
Verification development for the session-lifecycle orchestrator in
`src/util/manageSession.ts` of wppconnect-server.

The on-disk stores (the Token Store directory `tokens` and the User Data
Tree `customUserDataDir`) are modelled as file maps: lists of pairs of a
relative path (list of path components) and file contents (list of bytes),
with first-match lookup semantics. The in-memory registry `clientsArray`
is modelled as an association list from session identifier to client
handle. Archive construction (`archiver`) and extraction (`unzipper`) are
modelled at their interface, as the spec treats them: an archive is the
file map of its entries. Control-flow ordering of the asynchronous
callbacks is modelled by explicit event traces.
-/

/-- A relative filesystem path, as a list of path components. -/
abbrev FPath := List String

/-- File contents, as a list of bytes. -/
abbrev Bytes := List Nat

/-- A directory tree flattened to a file map: relative path to contents.
First match wins on lookup, mirroring a real filesystem where paths are
unique. -/
abbrev Store := List (FPath × Bytes)

/-- Look up the contents of the file at path `p` in store `s`. -/
def lookupFile : Store → FPath → Option Bytes
  | [], _ => none
  | (q, b) :: t, p => if q = p then some b else lookupFile t p

/-- Place every file of store `s` under the top-level directory entry
`name`, as `archive.directory(dir, name)` does when adding a directory to
the archive. -/
def nestStore (name : String) (s : Store) : Store :=
  s.map (fun e => (name :: e.1, e.2))

/-- The files of store `s` that live under the top-level entry `name`,
with that component stripped: the contents of subdirectory `name`. -/
def subStore (name : String) (s : Store) : Store :=
  (s.filter (fun e => e.1.head? = some name)).map (fun e => (e.1.tail, e.2))

/-- `fileSystem.cpSync(src, dst, { force, recursive: true })` on file
maps: with `force := true` conflicting files are overwritten by `src`,
with `force := false` existing files of `dst` win. -/
def cpSync (force : Bool) (src dst : Store) : Store :=
  if force then src ++ dst else dst ++ src

/-- Does the character list `sub` occur contiguously in `s`?  Mirrors
JavaScript `String.prototype.includes` on the underlying characters. -/
def containsSub (sub : List Char) : List Char → Bool
  | [] => sub.isEmpty
  | c :: t => sub.isPrefixOf (c :: t) || containsSub sub t

/-- JavaScript `s.includes(sub)`. -/
def strIncludes (s sub : String) : Bool :=
  containsSub sub.data s.data

/-- A live client handle in `clientsArray`: `status` is the status flag
the code tests, `closeThrows` says whether `client.page.browser().close()`
throws for this handle. -/
structure Client where
  status : Bool
  closeThrows : Bool
deriving DecidableEq

/-- The process-wide registry `clientsArray`, an object mapping session
identifier to client handle. -/
abbrev Registry := List (String × Client)

/-- `clientsArray[session]`. -/
def regLookup : Registry → String → Option Client
  | [], _ => none
  | (n, c) :: t, s => if n = s then some c else regLookup t s

/-- `delete clientsArray[session]`. -/
def regErase : Registry → String → Registry
  | [], _ => []
  | (n, c) :: t, s => if n = s then regErase t s else (n, c) :: regErase t s

/-- Events of the teardown coordinator `closeAllSessions`. -/
inductive TEv where
  | removed (s : String)
  | closeReq (s : String)
  | closeErr (s : String)
deriving DecidableEq

/-- One iteration of the `names.forEach` callback in `closeAllSessions`:
read `clientsArray[session]`, delete the registry entry, then, if the
handle has a truthy status, request closure of its browser process (which
may throw: the `catch` swallows the error and the second `delete` is then
skipped). Returns the updated registry and the emitted events. -/
def closeSessionStep (reg : Registry) (session : String) :
    Registry × List TEv :=
  let client := regLookup reg session
  let reg1 := regErase reg session
  match client with
  | some c =>
    if c.status then
      if c.closeThrows then
        (reg1, [TEv.removed session, TEv.closeReq session,
                TEv.closeErr session])
      else
        (regErase reg1 session,
         [TEv.removed session, TEv.closeReq session])
    else
      (regErase reg1 session, [TEv.removed session])
  | none => (regErase reg1 session, [TEv.removed session])

/-- `closeAllSessions`: for every identifier produced by the (external)
`getAllTokens` collaborator — passed here as `names` — run the closing
callback; then wait the fixed 500ms grace period (a pure no-op in this
model) and return. -/
def closeAllSessions (names : List String) (reg : Registry) :
    Registry × List TEv :=
  names.foldl
    (fun acc s =>
      let r := closeSessionStep acc.1 s
      (r.1, acc.2 ++ r.2))
    (reg, [])

/-! Basic lemmas about the registry. -/

theorem regLookup_regErase_self (reg : Registry) (s : String) :
    regLookup (regErase reg s) s = none := by
  induction reg with
  | nil => rfl
  | cons e t ih =>
    obtain ⟨n, c⟩ := e
    by_cases h : n = s
    · simpa [regErase, h] using ih
    · simp [regErase, regLookup, h, ih]

theorem regLookup_regErase_none (reg : Registry) (s t : String)
    (h : regLookup reg s = none) :
    regLookup (regErase reg t) s = none := by
  induction reg with
  | nil => rfl
  | cons e r ih =>
    obtain ⟨n, c⟩ := e
    by_cases he : n = s
    · simp [regLookup, he] at h
    · simp only [regLookup, if_neg he] at h
      by_cases ht : n = t
      · simp only [regErase, if_pos ht]
        exact ih h
      · simp only [regErase, if_neg ht, regLookup, if_neg he]
        exact ih h

theorem closeSessionStep_lookup_self (reg : Registry) (s : String) :
    regLookup (closeSessionStep reg s).1 s = none := by
  unfold closeSessionStep
  cases h : regLookup reg s with
  | none =>
    simp [regLookup_regErase_none _ _ _ (regLookup_regErase_self reg s)]
  | some c =>
    cases hs : c.status <;>
      cases ht : c.closeThrows <;>
        simp [hs, ht, regLookup_regErase_self,
          regLookup_regErase_none _ _ _ (regLookup_regErase_self reg s)]

theorem closeSessionStep_lookup_none (reg : Registry) (s t : String)
    (h : regLookup reg s = none) :
    regLookup (closeSessionStep reg t).1 s = none := by
  unfold closeSessionStep
  cases hc : regLookup reg t with
  | none =>
    exact regLookup_regErase_none _ _ _ (regLookup_regErase_none _ _ _ h)
  | some c =>
    cases hs : c.status <;> cases ht : c.closeThrows <;>
      simp [hs, ht, regLookup_regErase_none _ _ _ h,
        regLookup_regErase_none _ _ _ (regLookup_regErase_none _ _ _ h)]

theorem closeAllSessions_fold_none (names : List String) (reg : Registry)
    (evs : List TEv) (s : String) (h : regLookup reg s = none) :
    regLookup (names.foldl
      (fun acc t =>
        let r := closeSessionStep acc.1 t
        (r.1, acc.2 ++ r.2)) (reg, evs)).1 s = none := by
  induction names generalizing reg evs with
  | nil => exact h
  | cons n rest ih =>
    exact ih _ _ (closeSessionStep_lookup_none reg s n h)

theorem closeAllSessions_mem_none (names : List String) (reg : Registry)
    (evs : List TEv) (s : String) (h : s ∈ names) :
    regLookup (names.foldl
      (fun acc t =>
        let r := closeSessionStep acc.1 t
        (r.1, acc.2 ++ r.2)) (reg, evs)).1 s = none := by
  induction names generalizing reg evs with
  | nil => cases h
  | cons n rest ih =>
    rcases List.mem_cons.mp h with rfl | hm
    · exact closeAllSessions_fold_none rest _ _ s
        (closeSessionStep_lookup_self reg s)
    · exact ih _ _ hm

theorem closeSessionStep_head (reg : Registry) (s : String) :
    (closeSessionStep reg s).2.head? = some (TEv.removed s) := by
  unfold closeSessionStep
  cases regLookup reg s with
  | none => rfl
  | some c => cases hs : c.status <;> cases ht : c.closeThrows <;> simp [hs, ht]

/-- The full server state touched by the export/import pipelines: the
registry `clientsArray`, the Token Store directory and the User Data
Tree. -/
structure ServerState where
  registry : Registry
  tokens : Store
  userData : Store
deriving DecidableEq

/-- Events of the export pipeline `backupSessions`, in the order the code
and its callbacks fire them. -/
inductive BEv where
  | teardown
  | outputOpened
  | tokensAdded
  | stagingCopied
  | userDataAdded
  | finalized
  | outputClosed
  | stagingRemoved
  | streamPiped
  | streamEnded
  | restartCalled
  | resEnded
  | archiveErrored
  | streamErrored
  | rejectCalled
  | resolveCalled
deriving DecidableEq

/-- Outcome of one run of `backupSessions`. `archiveFile` is the content
of `backupSessions.zip`, `streamedOut` what was piped to `req.res`. -/
structure BackupResult where
  archiveFile : Store
  streamedOut : Store
  registry : Registry
  trace : List BEv
deriving DecidableEq

/-- `backupSessions`: teardown, then write the archive — the `tokens`
directory under entry `tokens` and a staging copy (`backupFolder`) of the
User Data Tree under entry `userDataDir` — and finalize it. When the
output stream closes, the staging copy is removed and the archive file is
streamed to the caller; when that stream ends, `startAllSessions` is
invoked and the response ended. `aErr` models the archive writer emitting
`error` (which rejects the promise before the output close fires), `sErr`
models the read stream emitting `error` instead of `end`. The promise's
`resolve` is never called in the source, so no branch emits
`BEv.resolveCalled`. -/
def backupSessions (st : ServerState) (names : List String)
    (aErr sErr : Bool) : BackupResult :=
  let reg1 := (closeAllSessions names st.registry).1
  if aErr then
    { archiveFile := [], streamedOut := [], registry := reg1,
      trace := [BEv.teardown, BEv.outputOpened, BEv.archiveErrored,
                BEv.rejectCalled] }
  else
    let staging := cpSync true st.userData []
    let ar := nestStore "tokens" st.tokens ++ nestStore "userDataDir" staging
    if sErr then
      { archiveFile := ar, streamedOut := [], registry := reg1,
        trace := [BEv.teardown, BEv.outputOpened, BEv.tokensAdded,
                  BEv.stagingCopied, BEv.userDataAdded, BEv.finalized,
                  BEv.outputClosed, BEv.stagingRemoved, BEv.streamPiped,
                  BEv.streamErrored, BEv.rejectCalled] }
    else
      { archiveFile := ar, streamedOut := ar, registry := reg1,
        trace := [BEv.teardown, BEv.outputOpened, BEv.tokensAdded,
                  BEv.stagingCopied, BEv.userDataAdded, BEv.finalized,
                  BEv.outputClosed, BEv.stagingRemoved, BEv.streamPiped,
                  BEv.streamEnded, BEv.restartCalled, BEv.resEnded] }

/-- The multer upload handed to `restoreSessions`: its declared content
type and, when it is an archive, the file map of its entries. -/
structure UploadedFile where
  mimetype : Option String
  content : Store
deriving DecidableEq

/-- `!file?.mimetype?.includes('zip')` without the negation: a missing
file or mimetype is falsy. -/
def zipMime (file : UploadedFile) : Bool :=
  match file.mimetype with
  | some m => strIncludes m "zip"
  | none => false

/-- Events of the import pipeline `restoreSessions`. -/
inductive REv where
  | teardown
  | extractScheduled
  | successReturned
  | tokensMerged
  | tokensMergeFailed
  | userDataMerged
  | userDataMergeFailed
  | restartCalled
deriving DecidableEq

/-- Outcome of one run of `restoreSessions`: the value returned (or the
message of the thrown error), the server state after the extraction
callback has run, and the event trace (`successReturned` marks the
synchronous `return { success: true }`; everything after it runs in the
asynchronous `close` handler of the extraction stream). -/
structure RestoreResult where
  response : Except String Bool
  state : ServerState
  trace : List REv

/-- `restoreSessions`: reject non-zip uploads synchronously; otherwise
teardown, schedule extraction of the archive into `./restore`, and return
`{ success: true }`. The extraction `close` callback then merges
`restore/tokens` into the Token Store with `force: true` (archive wins),
merges `restore/userDataDir` into the User Data Tree with `force: false`
(live data wins), each merge's `cpSync` throwing — caught and logged —
when its source folder is absent from the archive, and finally calls
`startAllSessions`. -/
def restoreSessions (file : UploadedFile) (names : List String)
    (st : ServerState) : RestoreResult :=
  if zipMime file then
    let reg1 := (closeAllSessions names st.registry).1
    let tokensSrc := subStore "tokens" file.content
    let udSrc := subStore "userDataDir" file.content
    let tokensRes :=
      if tokensSrc.isEmpty then (st.tokens, REv.tokensMergeFailed)
      else (cpSync true tokensSrc st.tokens, REv.tokensMerged)
    let udRes :=
      if udSrc.isEmpty then (st.userData, REv.userDataMergeFailed)
      else (cpSync false udSrc st.userData, REv.userDataMerged)
    { response := Except.ok true,
      state := { registry := reg1, tokens := tokensRes.1,
                 userData := udRes.1 },
      trace := [REv.teardown, REv.extractScheduled, REv.successReturned,
                tokensRes.2, udRes.2, REv.restartCalled] }
  else
    { response := Except.error "Please, send zipped file",
      state := st, trace := [] }

/-- One immediate child of a directory as `deleteAllSessions` sees it:
its name, whether `lstatSync(itemPath).isDirectory()` holds, and whether
the `lstatSync` call or the removal call (`rmSync`/`unlinkSync`) throws
for it. -/
structure DirItem where
  name : String
  isDir : Bool
  lstatFails : Bool
  removeFails : Bool
deriving DecidableEq

/-- A directory as observed by `deleteAllSessions`: whether
`existsSync` holds, whether `readdirSync` throws, and its immediate
children. -/
structure DirState where
  present : Bool
  enumFails : Bool
  items : List DirItem
deriving DecidableEq

/-- The User Data Tree phase of `deleteAllSessions` applied to the item
list: each item's `lstatSync` and removal run inside a per-item
`try`/`catch`, so an item survives exactly when one of them throws; both
files and directories are removed. -/
def clearUserDataItems (items : List DirItem) : List DirItem :=
  items.filter (fun it => it.lstatFails || it.removeFails)

/-- The User Data Tree phase of `deleteAllSessions`: a missing directory
is only warned about, and an error from `readdirSync` is caught by the
phase's outer `catch`, logged, and the phase abandoned with the directory
unchanged. -/
def clearUserDataDir (d : DirState) : DirState :=
  if d.present then
    if d.enumFails then d
    else { d with items := clearUserDataItems d.items }
  else d

/-- The Token Store phase loop of `deleteAllSessions` applied to the item
list. `lstatSync` runs outside the per-item `try`, so its throwing
escapes to the phase's outer `catch` (second component `true`), aborting
the loop with the current and remaining items intact. A directory is
skipped with a warning, never deleted. `unlinkSync` runs inside the
per-item `try`, so its throwing only makes that item survive. -/
def clearTokenItems : List DirItem → List DirItem × Bool
  | [] => ([], false)
  | it :: rest =>
    if it.lstatFails then (it :: rest, true)
    else if it.isDir then
      let r := clearTokenItems rest
      (it :: r.1, r.2)
    else if it.removeFails then
      let r := clearTokenItems rest
      (it :: r.1, r.2)
    else clearTokenItems rest

/-- The Token Store phase of `deleteAllSessions`: a missing directory is
only warned about; a `readdirSync` error or an `lstatSync` error escapes
to the phase's `catch`, which rethrows a descriptive fatal error (second
component `true`). -/
def clearTokensDir (d : DirState) : DirState × Bool :=
  if d.present then
    if d.enumFails then (d, true)
    else
      let r := clearTokenItems d.items
      ({ d with items := r.1 }, r.2)
  else (d, false)

/-- The descriptive error thrown when the Token Store phase fails. -/
def tokenCleanupError : String :=
  "Failed to fully clear all session data. Error during token cleanup"

/-- Outcome of one run of `deleteAllSessions`. -/
structure PurgeResult where
  response : Except String (Bool × String)
  userData : DirState
  tokens : DirState
  registry : Registry

/-- `deleteAllSessions`: teardown, then clear the User Data Tree
(best-effort), then clear the Token Store; a fatal error in the latter
phase is rethrown, otherwise the success acknowledgment is returned. -/
def deleteAllSessions (names : List String) (reg : Registry)
    (ud tk : DirState) : PurgeResult :=
  let reg1 := (closeAllSessions names reg).1
  let ud1 := clearUserDataDir ud
  let tkRes := clearTokensDir tk
  if tkRes.2 then
    { response := Except.error tokenCleanupError,
      userData := ud1, tokens := tkRes.1, registry := reg1 }
  else
    { response :=
        Except.ok (true, "All sessions closed and data/tokens cleared."),
      userData := ud1, tokens := tkRes.1, registry := reg1 }

/-! Store lemmas for the round-trip and merge-policy claims. -/

theorem subStore_append (name : String) (a b : Store) :
    subStore name (a ++ b) = subStore name a ++ subStore name b := by
  simp [subStore, List.filter_append]

theorem subStore_nestStore_same (name : String) (s : Store) :
    subStore name (nestStore name s) = s := by
  induction s with
  | nil => rfl
  | cons e t ih =>
    simpa [nestStore, subStore, List.filter] using ih

theorem subStore_nestStore_ne (name m : String) (s : Store)
    (h : m ≠ name) : subStore name (nestStore m s) = [] := by
  induction s with
  | nil => rfl
  | cons e t ih =>
    simpa [nestStore, subStore, List.filter, h] using ih

theorem lookupFile_append_left (a b : Store) (p : FPath) (v : Bytes)
    (h : lookupFile a p = some v) : lookupFile (a ++ b) p = some v := by
  induction a with
  | nil => simp [lookupFile] at h
  | cons e t ih =>
    obtain ⟨q, c⟩ := e
    by_cases hq : q = p
    · simp_all [lookupFile]
    · simp only [lookupFile, if_neg hq] at h
      simpa [lookupFile, hq] using ih h

theorem lookupFile_append_right (a b : Store) (p : FPath)
    (h : lookupFile a p = none) : lookupFile (a ++ b) p = lookupFile b p := by
  induction a with
  | nil => rfl
  | cons e t ih =>
    obtain ⟨q, c⟩ := e
    by_cases hq : q = p
    · simp [lookupFile, hq] at h
    · simp only [lookupFile, if_neg hq] at h
      simpa [lookupFile, hq] using ih h

theorem lookupFile_isEmpty (s : Store) (p : FPath)
    (h : s.isEmpty = true) : lookupFile s p = none := by
  cases s with
  | nil => rfl
  | cons e t => simp [List.isEmpty] at h

/-- C1: exporting with `backupSessions` and then importing the produced
archive with `restoreSessions` into an empty pair of stores reproduces
byte-identical file contents at the same relative paths in both the Token
Store and the User Data Tree. -/
theorem backupSessions_restoreSessions_roundtrip (st : ServerState)
    (names1 names2 : List String) (p : FPath) :
    (restoreSessions
        ⟨some "application/zip", (backupSessions st names1 false false).archiveFile⟩
        names2 ⟨[], [], []⟩).response = Except.ok true ∧
    lookupFile (restoreSessions
        ⟨some "application/zip", (backupSessions st names1 false false).archiveFile⟩
        names2 ⟨[], [], []⟩).state.tokens p = lookupFile st.tokens p ∧
    lookupFile (restoreSessions
        ⟨some "application/zip", (backupSessions st names1 false false).archiveFile⟩
        names2 ⟨[], [], []⟩).state.userData p = lookupFile st.userData p := by
  have harch : (backupSessions st names1 false false).archiveFile
      = nestStore "tokens" st.tokens ++ nestStore "userDataDir" (st.userData ++ []) := rfl
  have hm : zipMime ⟨some "application/zip",
      (backupSessions st names1 false false).archiveFile⟩ = true := rfl
  have hts : subStore "tokens" ((backupSessions st names1 false false).archiveFile)
      = st.tokens := by
    rw [harch, subStore_append, subStore_nestStore_same,
      subStore_nestStore_ne _ _ _ (by decide)]
    simp
  have hud : subStore "userDataDir" ((backupSessions st names1 false false).archiveFile)
      = st.userData := by
    rw [harch, subStore_append, subStore_nestStore_ne _ _ _ (by decide),
      subStore_nestStore_same]
    simp
  simp only [restoreSessions, hm, if_true, hts, hud]
  refine ⟨trivial, ?_, ?_⟩
  · by_cases he : st.tokens.isEmpty
    · simp [he, List.isEmpty_iff.mp he, cpSync]
    · simp [he, cpSync]
  · by_cases he : st.userData.isEmpty
    · simp [he, List.isEmpty_iff.mp he, cpSync]
    · simp [he, cpSync]

/-- C2: after `closeAllSessions` returns, `clientsArray` contains none of
the enumerated identifiers, regardless of whether individual close calls
throw; and within each per-identifier step the registry removal event is
emitted before any close request. -/
theorem closeAllSessions_drains_registry (names : List String)
    (reg : Registry) :
    (∀ s, s ∈ names → regLookup (closeAllSessions names reg).1 s = none) ∧
    (∀ r t, (closeSessionStep r t).2.head? = some (TEv.removed t)) := by
  constructor
  · intro s hs
    exact closeAllSessions_mem_none names reg [] s hs
  · exact closeSessionStep_head

theorem closeAllSessions_drains_registry_witness :
    regLookup (closeAllSessions ["a", "b"]
      [("a", ⟨true, true⟩), ("b", ⟨true, false⟩), ("c", ⟨false, false⟩)]).1
      "a" = none ∧
    (closeSessionStep [("a", ⟨true, true⟩)] "a").2.head?
      = some (TEv.removed "a") :=
  ⟨(closeAllSessions_drains_registry ["a", "b"]
      [("a", ⟨true, true⟩), ("b", ⟨true, false⟩), ("c", ⟨false, false⟩)]).1
      "a" (by decide),
   (closeAllSessions_drains_registry [] []).2 [("a", ⟨true, true⟩)] "a"⟩

/-- C3: an upload whose declared content type does not contain `zip`
makes `restoreSessions` throw immediately: no teardown event, no merge
event, and the registry and both stores are returned unchanged. -/
theorem restoreSessions_rejects_non_zip (file : UploadedFile)
    (names : List String) (st : ServerState) (h : zipMime file = false) :
    (restoreSessions file names st).response
      = Except.error "Please, send zipped file" ∧
    (restoreSessions file names st).state = st ∧
    (restoreSessions file names st).trace = [] := by
  simp [restoreSessions, h]

theorem restoreSessions_rejects_non_zip_witness :
    (restoreSessions ⟨some "text/plain", [(["x"], [1])]⟩ ["a"]
      ⟨[("a", ⟨true, false⟩)], [(["t"], [2])], [(["u"], [3])]⟩).response
        = Except.error "Please, send zipped file" ∧
    (restoreSessions ⟨some "text/plain", [(["x"], [1])]⟩ ["a"]
      ⟨[("a", ⟨true, false⟩)], [(["t"], [2])], [(["u"], [3])]⟩).state
        = ⟨[("a", ⟨true, false⟩)], [(["t"], [2])], [(["u"], [3])]⟩ ∧
    (restoreSessions ⟨some "text/plain", [(["x"], [1])]⟩ ["a"]
      ⟨[("a", ⟨true, false⟩)], [(["t"], [2])], [(["u"], [3])]⟩).trace = [] :=
  restoreSessions_rejects_non_zip ⟨some "text/plain", [(["x"], [1])]⟩ ["a"]
    ⟨[("a", ⟨true, false⟩)], [(["t"], [2])], [(["u"], [3])]⟩ (by decide)

theorem backupSessions_trace_ok (st : ServerState) (names : List String) :
    (backupSessions st names false false).trace
      = [BEv.teardown, BEv.outputOpened, BEv.tokensAdded, BEv.stagingCopied,
         BEv.userDataAdded, BEv.finalized, BEv.outputClosed,
         BEv.stagingRemoved, BEv.streamPiped, BEv.streamEnded,
         BEv.restartCalled, BEv.resEnded] := rfl

/-- C5: `startAllSessions` is reached in `backupSessions` exactly when
neither the archive writer nor the response stream errors, and on that
path only after the output stream has closed (archive fully on disk) and
after the read stream piping it to the caller has ended. -/
theorem backupSessions_restart_order (st : ServerState)
    (names : List String) (aErr sErr : Bool) :
    ((backupSessions st names aErr sErr).trace.contains BEv.restartCalled)
      = (!aErr && !sErr) ∧
    BEv.restartCalled ∈ (backupSessions st names false false).trace ∧
    (backupSessions st names false false).trace.indexOf BEv.outputClosed
      < (backupSessions st names false false).trace.indexOf BEv.restartCalled ∧
    (backupSessions st names false false).trace.indexOf BEv.streamEnded
      < (backupSessions st names false false).trace.indexOf BEv.restartCalled := by
  rw [backupSessions_trace_ok st names]
  refine ⟨?_, by decide, by decide, by decide⟩
  cases aErr <;> cases sErr <;> rfl

/-- C4: asymmetric merge law of `restoreSessions`: a path present in
both the archive's `tokens` entry and the live Token Store ends up with
the archive's contents (`force: true` overwrite), while a path present in
both the live User Data Tree and the archive's `userDataDir` entry keeps
the live contents (`force: false`, existing data wins). -/
theorem restoreSessions_merge_policy (file : UploadedFile)
    (names : List String) (st : ServerState) (p q : FPath)
    (bArch bLive : Bytes)
    (hm : zipMime file = true)
    (htA : lookupFile (subStore "tokens" file.content) p = some bArch)
    (_htL : (lookupFile st.tokens p).isSome = true)
    (huL : lookupFile st.userData q = some bLive)
    (_huA : (lookupFile (subStore "userDataDir" file.content) q).isSome = true) :
    lookupFile (restoreSessions file names st).state.tokens p = some bArch ∧
    lookupFile (restoreSessions file names st).state.userData q = some bLive := by
  have hne : (subStore "tokens" file.content).isEmpty = false := by
    cases h : (subStore "tokens" file.content).isEmpty
    · rfl
    · rw [lookupFile_isEmpty _ _ h] at htA; cases htA
  simp only [restoreSessions, hm, if_true]
  constructor
  · simp only [hne, Bool.false_eq_true, if_false, cpSync, if_true]
    exact lookupFile_append_left _ _ _ _ htA
  · by_cases h2 : (subStore "userDataDir" file.content).isEmpty
    · simp [h2, huL]
    · simp only [h2, Bool.false_eq_true, if_false, cpSync, if_true]
      exact lookupFile_append_left _ _ _ _ huL

theorem restoreSessions_merge_policy_witness :
    lookupFile (restoreSessions
      ⟨some "application/zip",
        [(["tokens", "a.json"], [1]), (["userDataDir", "p.bin"], [2])]⟩
      [] ⟨[], [(["a.json"], [9])], [(["p.bin"], [7])]⟩).state.tokens
      ["a.json"] = some [1] ∧
    lookupFile (restoreSessions
      ⟨some "application/zip",
        [(["tokens", "a.json"], [1]), (["userDataDir", "p.bin"], [2])]⟩
      [] ⟨[], [(["a.json"], [9])], [(["p.bin"], [7])]⟩).state.userData
      ["p.bin"] = some [7] :=
  restoreSessions_merge_policy
    ⟨some "application/zip",
      [(["tokens", "a.json"], [1]), (["userDataDir", "p.bin"], [2])]⟩
    [] ⟨[], [(["a.json"], [9])], [(["p.bin"], [7])]⟩
    ["a.json"] ["p.bin"] [1] [7]
    (by decide) (by decide) (by decide) (by decide) (by decide)

/-- C6: a valid zip-typed upload makes `restoreSessions` return the
success acknowledgment `{ success: true }`, with the synchronous trace
ending at `successReturned` and the merge events and `startAllSessions`
running after that return, inside the extraction's `close` callback. -/
theorem restoreSessions_ack_before_merge (file : UploadedFile)
    (names : List String) (st : ServerState) (hm : zipMime file = true) :
    (restoreSessions file names st).response = Except.ok true ∧
    ∃ tEv uEv,
      (restoreSessions file names st).trace =
        [REv.teardown, REv.extractScheduled, REv.successReturned, tEv, uEv,
         REv.restartCalled] ∧
      (tEv = REv.tokensMerged ∨ tEv = REv.tokensMergeFailed) ∧
      (uEv = REv.userDataMerged ∨ uEv = REv.userDataMergeFailed) := by
  refine ⟨by simp [restoreSessions, hm], ?_⟩
  by_cases h1 : (subStore "tokens" file.content).isEmpty
  · by_cases h2 : (subStore "userDataDir" file.content).isEmpty
    · exact ⟨REv.tokensMergeFailed, REv.userDataMergeFailed,
        by simp [restoreSessions, hm, h1, h2], Or.inr rfl, Or.inr rfl⟩
    · exact ⟨REv.tokensMergeFailed, REv.userDataMerged,
        by simp [restoreSessions, hm, h1, h2], Or.inr rfl, Or.inl rfl⟩
  · by_cases h2 : (subStore "userDataDir" file.content).isEmpty
    · exact ⟨REv.tokensMerged, REv.userDataMergeFailed,
        by simp [restoreSessions, hm, h1, h2], Or.inl rfl, Or.inr rfl⟩
    · exact ⟨REv.tokensMerged, REv.userDataMerged,
        by simp [restoreSessions, hm, h1, h2], Or.inl rfl, Or.inl rfl⟩

theorem restoreSessions_ack_before_merge_witness :
    (restoreSessions ⟨some "application/zip", [(["tokens", "a"], [1])]⟩
      ["s"] ⟨[("s", ⟨true, false⟩)], [], []⟩).response = Except.ok true ∧
    ∃ tEv uEv,
      (restoreSessions ⟨some "application/zip", [(["tokens", "a"], [1])]⟩
        ["s"] ⟨[("s", ⟨true, false⟩)], [], []⟩).trace =
        [REv.teardown, REv.extractScheduled, REv.successReturned, tEv, uEv,
         REv.restartCalled] ∧
      (tEv = REv.tokensMerged ∨ tEv = REv.tokensMergeFailed) ∧
      (uEv = REv.userDataMerged ∨ uEv = REv.userDataMergeFailed) :=
  restoreSessions_ack_before_merge
    ⟨some "application/zip", [(["tokens", "a"], [1])]⟩
    ["s"] ⟨[("s", ⟨true, false⟩)], [], []⟩ (by decide)

/-- C9: the promise returned by `backupSessions` never resolves —
`resolve` is invoked on no path — and `reject` is invoked exactly on the
error paths; on the success path completion is observable only through
the response stream ending. -/
theorem backupSessions_never_resolves (st : ServerState)
    (names : List String) (aErr sErr : Bool) :
    ((backupSessions st names aErr sErr).trace.contains BEv.resolveCalled)
      = false ∧
    ((backupSessions st names aErr sErr).trace.contains BEv.rejectCalled)
      = (aErr || sErr) ∧
    ((backupSessions st names false false).trace.contains BEv.streamEnded)
      = true := by
  cases aErr <;> cases sErr <;> exact ⟨rfl, rfl, rfl⟩

/-! Helper lemmas for the purge pipeline claims. -/

theorem deleteAllSessions_tokens_eq (names : List String) (reg : Registry)
    (ud tk : DirState) :
    (deleteAllSessions names reg ud tk).tokens = (clearTokensDir tk).1 := by
  unfold deleteAllSessions
  cases h : (clearTokensDir tk).2 <;> simp [h]

theorem deleteAllSessions_userData_eq (names : List String) (reg : Registry)
    (ud tk : DirState) :
    (deleteAllSessions names reg ud tk).userData = clearUserDataDir ud := by
  unfold deleteAllSessions
  cases h : (clearTokensDir tk).2 <;> simp [h]

theorem clearTokenItems_snd (items : List DirItem) :
    (clearTokenItems items).2 = items.any (fun it => it.lstatFails) := by
  induction items with
  | nil => rfl
  | cons a rest ih =>
    by_cases hl : a.lstatFails
    · simp [clearTokenItems, hl]
    · by_cases hd : a.isDir
      · simp [clearTokenItems, hl, hd, ih]
      · by_cases hr : a.removeFails <;> simp [clearTokenItems, hl, hd, hr, ih]

theorem clearTokenItems_keeps_dirs (items : List DirItem) (it : DirItem)
    (hmem : it ∈ items) (hdir : it.isDir = true) :
    it ∈ (clearTokenItems items).1 := by
  induction items with
  | nil => cases hmem
  | cons a rest ih =>
    rcases List.mem_cons.mp hmem with rfl | hm2
    · by_cases hl : it.lstatFails
      · simp [clearTokenItems, hl]
      · simp [clearTokenItems, hl, hdir]
    · by_cases hl : a.lstatFails
      · simp [clearTokenItems, hl]
        exact Or.inr hm2
      · by_cases hd : a.isDir
        · simp [clearTokenItems, hl, hd]
          exact Or.inr (ih hm2)
        · by_cases hr : a.removeFails
          · simp [clearTokenItems, hl, hd, hr]
            exact Or.inr (ih hm2)
          · simpa [clearTokenItems, hl, hd, hr] using ih hm2

theorem clearTokensDir_no_fatal (tk : DirState) (h3 : tk.enumFails = false)
    (h4 : ∀ it, it ∈ tk.items → it.lstatFails = false) :
    (clearTokensDir tk).2 = false := by
  unfold clearTokensDir
  by_cases hp : tk.present
  · have : tk.items.any (fun it => it.lstatFails) = false := by
      simp only [List.any_eq_false]
      intro it hit
      simp [h4 it hit]
    simp [hp, h3, clearTokenItems_snd, this]
  · simp [hp]

/-- C7: `deleteAllSessions` never deletes a subdirectory found inside the
Token Store — every directory item there survives untouched — while in
the User Data Tree every immediate child whose `lstat` and removal do not
throw is deleted, file or directory alike. -/
theorem deleteAllSessions_token_subdir_frame (names : List String)
    (reg : Registry) (ud tk : DirState) :
    (∀ it, it ∈ tk.items → it.isDir = true →
      it ∈ (deleteAllSessions names reg ud tk).tokens.items) ∧
    (ud.present = true → ud.enumFails = false →
      ∀ it, it ∈ ud.items → it.lstatFails = false → it.removeFails = false →
        it ∉ (deleteAllSessions names reg ud tk).userData.items) := by
  constructor
  · intro it hmem hdir
    rw [deleteAllSessions_tokens_eq]
    unfold clearTokensDir
    by_cases hp : tk.present
    · by_cases he : tk.enumFails
      · simpa [hp, he] using hmem
      · simpa [hp, he] using clearTokenItems_keeps_dirs tk.items it hmem hdir
    · simpa [hp] using hmem
  · intro hp he it hmem hl hr
    rw [deleteAllSessions_userData_eq]
    simp [clearUserDataDir, hp, he, clearUserDataItems, List.mem_filter, hl, hr]

theorem deleteAllSessions_token_subdir_frame_witness :
    (⟨"d", true, false, false⟩ : DirItem) ∈
      (deleteAllSessions [] [] ⟨true, false, [⟨"f", false, false, false⟩]⟩
        ⟨true, false, [⟨"d", true, false, false⟩]⟩).tokens.items ∧
    (⟨"f", false, false, false⟩ : DirItem) ∉
      (deleteAllSessions [] [] ⟨true, false, [⟨"f", false, false, false⟩]⟩
        ⟨true, false, [⟨"d", true, false, false⟩]⟩).userData.items :=
  ⟨(deleteAllSessions_token_subdir_frame [] []
      ⟨true, false, [⟨"f", false, false, false⟩]⟩
      ⟨true, false, [⟨"d", true, false, false⟩]⟩).1
      ⟨"d", true, false, false⟩ (by decide) rfl,
   (deleteAllSessions_token_subdir_frame [] []
      ⟨true, false, [⟨"f", false, false, false⟩]⟩
      ⟨true, false, [⟨"d", true, false, false⟩]⟩).2
      rfl rfl ⟨"f", false, false, false⟩ (by decide) rfl rfl⟩

/-- C8 counterexample: a per-item deletion error while clearing the Token
Store — `unlinkSync` throwing on `a.json` — is caught by the per-item
`catch`, so the item survives yet `deleteAllSessions` still returns the
success acknowledgment: the operation does not fail as the claim
states. -/
theorem deleteAllSessions_token_item_error_not_fatal :
    (deleteAllSessions [] [] ⟨true, false, []⟩
        ⟨true, false, [⟨"a.json", false, false, true⟩]⟩).response
      = Except.ok (true, "All sessions closed and data/tokens cleared.") ∧
    (deleteAllSessions [] [] ⟨true, false, []⟩
        ⟨true, false, [⟨"a.json", false, false, true⟩]⟩).tokens.items
      = [⟨"a.json", false, false, true⟩] := by
  constructor <;> rfl

/-- C8 (amended): per-item `unlinkSync` errors in the Token Store phase
are logged and isolated just like per-item errors in the User Data Tree
phase; what escalates to the fatal descriptive error — even when the
User Data Tree phase already succeeded — are the errors that escape the
per-item handler in the Token Store phase: a `readdirSync` failure or a
per-item `lstatSync` failure. -/
theorem deleteAllSessions_escalation_policy (names : List String)
    (reg : Registry) (ud tk : DirState) :
    (tk.present = true → tk.enumFails = true →
      (deleteAllSessions names reg ud tk).response
        = Except.error tokenCleanupError) ∧
    (tk.present = true → tk.enumFails = false →
      tk.items.any (fun it => it.lstatFails) = true →
      (deleteAllSessions names reg ud tk).response
        = Except.error tokenCleanupError) ∧
    (tk.enumFails = false → (∀ it, it ∈ tk.items → it.lstatFails = false) →
      (deleteAllSessions names reg ud tk).response
        = Except.ok (true, "All sessions closed and data/tokens cleared.")) := by
  refine ⟨?_, ?_, ?_⟩
  · intro hp he
    have h2 : (clearTokensDir tk).2 = true := by simp [clearTokensDir, hp, he]
    unfold deleteAllSessions
    simp [h2]
  · intro hp he hany
    have h2 : (clearTokensDir tk).2 = true := by
      simp [clearTokensDir, hp, he, clearTokenItems_snd, hany]
    unfold deleteAllSessions
    simp [h2]
  · intro he h4
    unfold deleteAllSessions
    simp [clearTokensDir_no_fatal tk he h4]

theorem deleteAllSessions_escalation_policy_witness :
    (deleteAllSessions [] [] ⟨true, false, []⟩ ⟨true, true, []⟩).response
      = Except.error tokenCleanupError ∧
    (deleteAllSessions [] [] ⟨true, false, []⟩
        ⟨true, false, [⟨"a", false, true, false⟩]⟩).response
      = Except.error tokenCleanupError ∧
    (deleteAllSessions [] [] ⟨true, false, []⟩
        ⟨true, false, [⟨"a", false, false, true⟩]⟩).response
      = Except.ok (true, "All sessions closed and data/tokens cleared.") :=
  ⟨(deleteAllSessions_escalation_policy [] [] ⟨true, false, []⟩
      ⟨true, true, []⟩).1 rfl rfl,
   (deleteAllSessions_escalation_policy [] [] ⟨true, false, []⟩
      ⟨true, false, [⟨"a", false, true, false⟩]⟩).2.1 rfl rfl rfl,
   (deleteAllSessions_escalation_policy [] [] ⟨true, false, []⟩
      ⟨true, false, [⟨"a", false, false, true⟩]⟩).2.2 rfl (by decide)⟩

/-- C10: an error enumerating the User Data Tree in `deleteAllSessions`
is caught and logged but not fatal: that directory is left unchanged, the
Token Store phase still runs, and when it completes the overall success
acknowledgment is returned. -/
theorem deleteAllSessions_userdata_enum_not_fatal (names : List String)
    (reg : Registry) (ud tk : DirState)
    (h1 : ud.present = true) (h2 : ud.enumFails = true)
    (h3 : tk.enumFails = false)
    (h4 : ∀ it, it ∈ tk.items → it.lstatFails = false) :
    (deleteAllSessions names reg ud tk).response
      = Except.ok (true, "All sessions closed and data/tokens cleared.") ∧
    (deleteAllSessions names reg ud tk).userData = ud := by
  constructor
  · unfold deleteAllSessions
    simp [clearTokensDir_no_fatal tk h3 h4]
  · rw [deleteAllSessions_userData_eq]
    simp [clearUserDataDir, h1, h2]

theorem deleteAllSessions_userdata_enum_not_fatal_witness :
    (deleteAllSessions [] [] ⟨true, true, [⟨"x", false, false, false⟩]⟩
        ⟨true, false, [⟨"a", false, false, false⟩]⟩).response
      = Except.ok (true, "All sessions closed and data/tokens cleared.") ∧
    (deleteAllSessions [] [] ⟨true, true, [⟨"x", false, false, false⟩]⟩
        ⟨true, false, [⟨"a", false, false, false⟩]⟩).userData
      = ⟨true, true, [⟨"x", false, false, false⟩]⟩ :=
  deleteAllSessions_userdata_enum_not_fatal [] []
    ⟨true, true, [⟨"x", false, false, false⟩]⟩
    ⟨true, false, [⟨"a", false, false, false⟩]⟩
    rfl rfl rfl (by decide)
